import Mathlib

/-!
Shallow embedding of the critical-breaker move planner of
`src/plan-critical-move.js` (class `CriticalMovePlanner`), together with the
parts of the persistent data model (`breakers`, `panels` tables of
`src/unnamed/part_003`) that the planner queries.  The SQL queries are
modelled as pure functions over an in-memory snapshot (`DB`); JavaScript
arrays become `List`, JS `Set` objects (used only through `.has`/iteration)
become lists with explicit membership, and thrown errors become an
`Except PlanError` result.
-/

namespace BPH

/-- Column `slot_position` of the `breakers` table:
`CHECK(slot_position IN ('single', 'A', 'B'))`. -/
inductive Slot where
  | single
  | A
  | B
deriving DecidableEq, Repr

/-- Column `breaker_type`:
`CHECK(breaker_type IN ('single', 'double_pole', 'tandem'))`. -/
inductive BreakerType where
  | single
  | double_pole
  | tandem
deriving DecidableEq, Repr

/-- A row of the `breakers` table (the columns the planner reads). -/
structure Breaker where
  id : Nat
  panel_id : Nat
  position : Nat
  slot_position : Slot
  breaker_type : BreakerType
  critical : Bool
deriving DecidableEq, Repr

instance : Inhabited Breaker := ⟨⟨0, 0, 0, .single, .single, false⟩⟩

/-- A row of the `panels` table (the columns the planner reads). -/
structure Panel where
  id : Nat
  size : Nat
deriving DecidableEq, Repr

/-- In-memory snapshot of the SQLite database the planner queries. -/
structure DB where
  panels : List Panel
  breakers : List Breaker
deriving DecidableEq, Repr

/-- Rank of a `slot_position` value under SQLite text ordering:
the strings satisfy 'A' < 'B' < 'single'. -/
def slotRank : Slot → Nat
  | .A => 0
  | .B => 1
  | .single => 2

/-- Comparison used by `ORDER BY b.panel_id, b.position, b.slot_position`
in `getCriticalBreakers` (plan-critical-move.js:73). -/
def breakerLe (a b : Breaker) : Prop :=
  if a.panel_id ≠ b.panel_id then a.panel_id < b.panel_id
  else if a.position ≠ b.position then a.position < b.position
  else slotRank a.slot_position ≤ slotRank b.slot_position

instance : DecidableRel breakerLe := fun a b => by
  unfold breakerLe
  infer_instance

/-- Comparison used by `ORDER BY b.slot_position` in the per-position tandem
query (plan-critical-move.js:105). -/
def slotPosLe (a b : Breaker) : Prop :=
  slotRank a.slot_position ≤ slotRank b.slot_position

instance : DecidableRel slotPosLe := fun a b => by
  unfold slotPosLe
  infer_instance

/-- Whether the `JOIN panels p ON b.panel_id = p.id` keeps a breaker row. -/
def panelExists (db : DB) (pid : Nat) : Bool :=
  db.panels.any (fun p => p.id == pid)

/-- `getCriticalBreakers` (plan-critical-move.js:61-75): every critical
breaker of every panel (no source-panel filter), joined against `panels`,
ordered by `panel_id, position, slot_position`.  The aggregated
`circuit_count`/`circuit_descriptions` columns are only used for printed
descriptions and are omitted. -/
def getCriticalBreakers (db : DB) : List Breaker :=
  (db.breakers.filter (fun b => b.critical && panelExists db b.panel_id)).insertionSort
    breakerLe

/-- The per-position tandem query of `createTandemReorganizationStrategy`
(plan-critical-move.js:96-106): all tandem rows at
`(sourcePanelId, position)`, ordered by `slot_position`. -/
def tandemRowsAt (db : DB) (pid pos : Nat) : List Breaker :=
  (db.breakers.filter (fun b =>
      b.panel_id == pid && b.position == pos && b.breaker_type == .tandem
        && panelExists db b.panel_id)).insertionSort slotPosLe

/-- Result row of `getPanel` (plan-critical-move.js:293-304):
`available_positions = p.size - COUNT(DISTINCT b.position)`.  The count of
distinct `position` values ignores the implicit `position+2` slot of
double-pole breakers, and the difference may be negative, hence `Int`. -/
structure PanelInfo where
  panel : Panel
  used_positions : Nat
  available_positions : Int
deriving DecidableEq, Repr

/-- `getPanel` (plan-critical-move.js:293-304). -/
def getPanel (db : DB) (pid : Nat) : Option PanelInfo :=
  (db.panels.find? (fun p => p.id == pid)).map (fun p =>
    let used := ((db.breakers.filter (fun b => b.panel_id == pid)).map
      (fun b => b.position)).dedup.length
    ⟨p, used, (p.size : Int) - used⟩)

/-- `getOccupiedPositions` (plan-critical-move.js:321-339).  The JS builds a
`Set` that is consumed only through membership tests, so it is modelled by a
(possibly duplicate-carrying) list: each breaker contributes `position`, and
a double-pole breaker additionally contributes `position + 2`.  No bound
against the panel size is applied. -/
def occupiedList (db : DB) (pid : Nat) : List Nat :=
  (db.breakers.filter (fun b => b.panel_id == pid)).flatMap (fun b =>
    if b.breaker_type == .double_pole then [b.position, b.position + 2]
    else [b.position])

/-- `isLeftSide` (plan-critical-move.js:342-344): odd positions are on the
left bus. -/
def isLeftSide (pos : Nat) : Bool :=
  pos % 2 == 1

/-- `findAvailablePositions` (plan-critical-move.js:347-367).
`generateMovePlan` always calls it with `preferredSide = null`, which makes
every entry `preferred`, so the comparator
`(a, b) => b.preferred - a.preferred || a.position - b.position` reduces to
ascending `position` and each entry is determined by its position. -/
def findAvailablePositions (db : DB) (pid size : Nat) : List Nat :=
  (((List.range size).map (fun i => i + 1)).filter
      (fun p => !(occupiedList db pid).contains p)).insertionSort (· ≤ ·)

/-- An entry of the `criticalBreakers`/`nonCriticalBreakers` arrays built in
`createMixedTandemReorganization` (plan-critical-move.js:158-172): a breaker
together with its original tandem position and slot. -/
structure Tagged where
  breaker : Breaker
  originalPosition : Nat
  originalSlot : Slot
deriving DecidableEq, Repr

instance : Inhabited Tagged := ⟨⟨default, 0, .single⟩⟩

/-- An entry of `strategy.mixedTandems` (plan-critical-move.js:113-118). -/
structure MixedTandem where
  position : Nat
  criticalSlots : List Breaker
  nonCriticalSlots : List Breaker
  allSlots : List Breaker
deriving DecidableEq, Repr

/-- A unit of `strategy.pureUnits` / `strategy.reorganizedUnits`; the JS
distinguishes the shapes by a `type` string tag.  The `finalSlots` record of
a reorganized unit is never read by `generateMovePlan` and is omitted. -/
inductive PlanUnit where
  | single_unit (position : Nat) (slots : List Breaker)
  | tandem_unit (position : Nat) (slots : List Breaker)
  | reorganized_tandem_unit (criticalBreaker nonCriticalPartner : Tagged)
      (finalPosition : Nat)
deriving DecidableEq, Repr

/-- A `from`/`to` record of a planned move. -/
structure Loc where
  panel_id : Nat
  position : Nat
  slot_position : Slot
deriving DecidableEq, Repr

/-- A move object.  `unit_type` is only present on critical moves, `step`
and `temporary_disconnect` only on reorganization moves, and `side_change`
is absent on reorganization moves emitted by `createMixedTandemReorganization`
while every critical move sets it to `false`; absent JS fields are `none`.
The human-readable `description`/`reason`/`panel_name` strings are omitted. -/
structure Move where
  mtype : String
  unit_type : Option String
  step : Option Nat
  breaker : Breaker
  src : Loc
  dst : Loc
  side_change : Option Bool
  temporary_disconnect : Option Bool
deriving DecidableEq, Repr

/-- The `strategy` object threaded through the planner
(plan-critical-move.js:79-84); `reorganizedUnits` starts absent in JS and is
read back through `strategy.reorganizedUnits || []`, so it is modelled as an
initially-empty list. -/
structure Strategy where
  mixedTandems : List MixedTandem
  pureUnits : List PlanUnit
  reorganizationMoves : List Move
  reorganizedUnits : List PlanUnit
deriving DecidableEq, Repr

/-- Append a value to a JS `Set` modelled as an insertion-ordered list. -/
def insertNew (acc : List Nat) (x : Nat) : List Nat :=
  if acc.contains x then acc else acc ++ [x]

/-- The `tandemPositions` set (plan-critical-move.js:87-92): positions of
critical tandem breakers, in first-encounter order. -/
def tandemPositions (criticalBreakers : List Breaker) : List Nat :=
  criticalBreakers.foldl (fun acc b =>
    if b.breaker_type == .tandem then insertNew acc b.position else acc) []

/-- `createTandemReorganizationStrategy` (plan-critical-move.js:78-141):
classify each critical-tandem position of the source panel as mixed or pure,
then add every non-tandem critical breaker (from any panel) as a
`single_unit`. -/
def createTandemReorganizationStrategy (db : DB) (criticalBreakers : List Breaker)
    (spid : Nat) : Strategy :=
  let classified := (tandemPositions criticalBreakers).foldl
    (fun (acc : List MixedTandem × List PlanUnit) pos =>
      let rows := tandemRowsAt db spid pos
      let crit := rows.filter (fun b => b.critical)
      let non := rows.filter (fun b => !b.critical)
      if crit.length > 0 && non.length > 0 then
        (acc.1 ++ [⟨pos, crit, non, rows⟩], acc.2)
      else if crit.length > 0 then
        (acc.1, acc.2 ++ [.tandem_unit pos crit])
      else acc) ([], [])
  let singles := (criticalBreakers.filter
      (fun b => !(b.breaker_type == .tandem))).map
    (fun b => PlanUnit.single_unit b.position [b])
  { mixedTandems := classified.1, pureUnits := classified.2 ++ singles,
    reorganizationMoves := [], reorganizedUnits := [] }

/-- `critical.originalSlot === 'A' ? 'B' : 'A'` (plan-critical-move.js:211). -/
def otherSlot (s : Slot) : Slot :=
  if s == .A then .B else .A

/-- The step-1 `reorganize_tandem_pair` move (plan-critical-move.js:198-215):
the non-critical partner relocates into the critical breaker's tandem slot. -/
def mkPairMove (spid : Nat) (critical partner : Tagged) : Move :=
  { mtype := "reorganize_tandem_pair", unit_type := none, step := some 1,
    breaker := partner.breaker,
    src := ⟨spid, partner.originalPosition, partner.originalSlot⟩,
    dst := ⟨spid, critical.originalPosition, otherSlot critical.originalSlot⟩,
    side_change := none, temporary_disconnect := some true }

/-- Accumulated result of the pairing loop of
`createMixedTandemReorganization` (plan-critical-move.js:182-236). -/
structure PairResult where
  moves : List Move
  newUnits : List PlanUnit
  extraPure : List PlanUnit
  remaining : List Tagged
deriving DecidableEq, Repr

/-- The pairing loop (plan-critical-move.js:182-236): for each critical
occupant of a mixed tandem, `findIndex` a non-critical occupant from a
different position, `splice` it out and pair the two; with no partner the
critical occupant is pushed onto `strategy.pureUnits` as a `single_unit`.
The non-critical entries left over after the loop are `remaining`. -/
def pairLoop (spid : Nat) : List Tagged → List Tagged → PairResult
  | [], ncs => ⟨[], [], [], ncs⟩
  | c :: cs, ncs =>
    match ncs.findIdx? (fun nc => nc.originalPosition != c.originalPosition) with
    | some i =>
      let partner := ncs.getD i default
      let r := pairLoop spid cs (ncs.eraseIdx i)
      ⟨mkPairMove spid c partner :: r.moves,
       .reorganized_tandem_unit c partner c.originalPosition :: r.newUnits,
       r.extraPure, r.remaining⟩
    | none =>
      let r := pairLoop spid cs ncs
      ⟨r.moves, r.newUnits,
       .single_unit c.originalPosition [c.breaker] :: r.extraPure, r.remaining⟩

/-- `positionsToBeFreed`, sorted ascending (plan-critical-move.js:243-253):
original positions of paired non-critical partners that moved away. -/
def freedPositions (newUnits : List PlanUnit) : List Nat :=
  (newUnits.foldl (fun acc u =>
      match u with
      | .reorganized_tandem_unit _ partner fp =>
        if partner.originalPosition != fp then insertNew acc partner.originalPosition
        else acc
      | _ => acc) []).insertionSort (· ≤ ·)

/-- The step-2 `reorganize_single` move (plan-critical-move.js:258-275):
a leftover non-critical occupant relocates to a freed position as a single. -/
def mkStep2Move (spid : Nat) (r : Tagged) (targetPosition : Nat) : Move :=
  { mtype := "reorganize_single", unit_type := none, step := some 2,
    breaker := r.breaker,
    src := ⟨spid, r.originalPosition, r.originalSlot⟩,
    dst := ⟨spid, targetPosition, .single⟩,
    side_change := none, temporary_disconnect := some true }

/-- `createMixedTandemReorganization` (plan-critical-move.js:144-290). -/
def createMixedTandemReorganization (strategy : Strategy) (spid : Nat) : Strategy :=
  let criticalTagged := strategy.mixedTandems.flatMap (fun m =>
    m.criticalSlots.map (fun c => Tagged.mk c m.position c.slot_position))
  let nonCriticalTagged := strategy.mixedTandems.flatMap (fun m =>
    m.nonCriticalSlots.map (fun c => Tagged.mk c m.position c.slot_position))
  let r := pairLoop spid criticalTagged nonCriticalTagged
  let step2 := (r.remaining.zip (freedPositions r.newUnits)).map
    (fun p => mkStep2Move spid p.1 p.2)
  { mixedTandems := strategy.mixedTandems,
    pureUnits := strategy.pureUnits ++ r.extraPure,
    reorganizationMoves := r.moves ++ step2,
    reorganizedUnits := r.newUnits }

/-- The typed forms of the errors `generateMovePlan` throws:
`targetPanelNotFound` for "Target panel ... not found" (line 573),
`noCriticalBreakers` for "No critical breakers found" (line 583),
`notEnoughSpace` for "Not enough space in target panel. Need ... spaces,
have ..." (line 616), and `ranOutOfPositions` for "Ran out of available
positions in target panel" (line 626). -/
inductive PlanError where
  | targetPanelNotFound (pid : Nat)
  | noCriticalBreakers
  | notEnoughSpace (need : Nat) (avail : Int)
  | ranOutOfPositions
deriving DecidableEq, Repr

/-- The `requiredSpaces` contribution of one unit
(plan-critical-move.js:605-613): 1 for a tandem or reorganized-tandem unit,
otherwise 2 for a double-pole breaker and 1 for a single.  The JS reads
`unit.slots[0]`; the generated units always have a non-empty `slots` list,
so the `getD` default is never reached on planner-built units. -/
def capacityCost : PlanUnit → Nat
  | .tandem_unit _ _ => 1
  | .reorganized_tandem_unit _ _ _ => 1
  | .single_unit _ slots =>
    if (slots.getD 0 default).breaker_type == .double_pole then 2 else 1

/-- Target slot for the i-th row of a pure critical tandem unit
(plan-critical-move.js:635): `single` when the unit has one row, otherwise
`A` for index 0 and `B` for the rest. -/
def tandemTargetSlot (len i : Nat) : Slot :=
  if len == 1 then .single else if i == 0 then .A else .B

/-- One `critical_move` of a pure critical `tandem_unit`
(plan-critical-move.js:637-655). -/
def mkTandemMove (tpid targetPos len i : Nat) (slot : Breaker) : Move :=
  { mtype := "critical_move", unit_type := some "tandem_unit", step := none,
    breaker := slot,
    src := ⟨slot.panel_id, slot.position, slot.slot_position⟩,
    dst := ⟨tpid, targetPos, tandemTargetSlot len i⟩,
    side_change := some false, temporary_disconnect := none }

/-- The `for (let i = 0; ...)` loop over a tandem unit's slots
(plan-critical-move.js:633-656), carrying the running index. -/
def tandemMoves (tpid targetPos len : Nat) : Nat → List Breaker → List Move
  | _, [] => []
  | i, slot :: rest =>
    mkTandemMove tpid targetPos len i slot :: tandemMoves tpid targetPos len (i + 1) rest

/-- The `critical_move` of the critical occupant of a reorganized tandem
unit (plan-critical-move.js:663-681): it departs from the unit's
`finalPosition` and lands in slot `A`. -/
def mkReorgCriticalMove (tpid targetPos : Nat) (c : Tagged) (finalPosition : Nat) : Move :=
  { mtype := "critical_move", unit_type := some "reorganized_tandem_unit", step := none,
    breaker := c.breaker,
    src := ⟨c.breaker.panel_id, finalPosition, c.breaker.slot_position⟩,
    dst := ⟨tpid, targetPos, .A⟩,
    side_change := some false, temporary_disconnect := none }

/-- The `critical_move` of the non-critical partner of a reorganized tandem
unit (plan-critical-move.js:683-701): it departs from the unit's
`finalPosition` — in the slot opposite the critical occupant when their
recorded slots collide — and lands in slot `B`. -/
def mkReorgPartnerMove (tpid targetPos : Nat) (c nc : Tagged) (finalPosition : Nat) : Move :=
  { mtype := "critical_move", unit_type := some "reorganized_tandem_unit", step := none,
    breaker := nc.breaker,
    src := ⟨nc.breaker.panel_id, finalPosition,
      if nc.breaker.slot_position == c.breaker.slot_position then
        otherSlot c.breaker.slot_position
      else nc.breaker.slot_position⟩,
    dst := ⟨tpid, targetPos, .B⟩,
    side_change := some false, temporary_disconnect := none }

/-- The `critical_move` of a `single_unit` (plan-critical-move.js:705-725):
the destination keeps the breaker's own `slot_position`. -/
def mkSingleMove (tpid targetPos : Nat) (b : Breaker) : Move :=
  { mtype := "critical_move", unit_type := some "single_unit", step := none,
    breaker := b,
    src := ⟨b.panel_id, b.position, b.slot_position⟩,
    dst := ⟨tpid, targetPos, b.slot_position⟩,
    side_change := some false, temporary_disconnect := none }

/-- The moves one unit contributes at its allocated target position
(plan-critical-move.js:631-728). -/
def emitUnitMoves (tpid targetPos : Nat) : PlanUnit → List Move
  | .tandem_unit _ slots => tandemMoves tpid targetPos slots.length 0 slots
  | .reorganized_tandem_unit c nc fp =>
    [mkReorgCriticalMove tpid targetPos c fp, mkReorgPartnerMove tpid targetPos c nc fp]
  | .single_unit _ slots => [mkSingleMove tpid targetPos (slots.getD 0 default)]

/-- How far `positionIndex` advances after a unit
(plan-critical-move.js:657, 702, 727): 1, except 2 for a double-pole
single unit. -/
def unitIndexStep : PlanUnit → Nat
  | .single_unit _ slots =>
    if (slots.getD 0 default).breaker_type == .double_pole then 2 else 1
  | _ => 1

/-- The allocation loop of `generateMovePlan` (plan-critical-move.js:621-729):
walk the units, reading `availablePositions[positionIndex]` for each, and
throw `ranOutOfPositions` when the index reaches the end of the free list. -/
def allocateMoves (tpid : Nat) (avail : List Nat) :
    List PlanUnit → Nat → Except PlanError (List Move)
  | [], _ => .ok []
  | u :: rest, idx =>
    if idx ≥ avail.length then .error .ranOutOfPositions
    else
      (allocateMoves tpid avail rest (idx + unitIndexStep u)).map
        (fun ms => emitUnitMoves tpid (avail.getD idx 0) u ++ ms)

/-- A progressive-delivery batch (plan-critical-move.js:494-565); the
human-readable `description`/`functional_completion` strings are omitted. -/
structure Batch where
  batch_number : Nat
  btype : String
  moves : List Move
deriving DecidableEq, Repr

/-- The unit-type test of the phase-2 batching loop
(plan-critical-move.js:532). -/
def isTandemUnitMove (m : Move) : Bool :=
  m.unit_type == some "tandem_unit" || m.unit_type == some "reorganized_tandem_unit"

/-- The body of the `while (remainingCritical.length > 0)` loop of
`createProgressiveBatches` (plan-critical-move.js:527-562), driven by a fuel
counter so the recursion is structural: a tandem-ish head move pulls every
following move sharing its `from.position` into its batch; any other move
forms a singleton batch.  Each iteration consumes at least one move, so any
fuel of at least the list length yields the loop's exact behaviour
(`criticalBatchesAux_flatten` below makes this precise). -/
def criticalBatchesAux : Nat → Nat → List Move → List Batch
  | 0, _, _ => []
  | _, _, [] => []
  | fuel + 1, startNum, m :: rest =>
    if isTandemUnitMove m then
      ⟨startNum, "critical_moves",
        m :: rest.takeWhile (fun x => x.src.position == m.src.position)⟩ ::
      criticalBatchesAux fuel (startNum + 1)
        (rest.dropWhile (fun x => x.src.position == m.src.position))
    else
      ⟨startNum, "critical_moves", [m]⟩ :: criticalBatchesAux fuel (startNum + 1) rest

/-- The phase-2 part of `createProgressiveBatches`
(plan-critical-move.js:527-562). -/
def criticalBatches (startNum : Nat) (remaining : List Move) : List Batch :=
  criticalBatchesAux remaining.length startNum remaining

/-- `createProgressiveBatches` (plan-critical-move.js:494-565).  The JS
guards the phase-1 batches behind `reorganizationMoves.length > 0` and then
per-step emptiness checks; with an empty move list both step filters are
empty, so the inner checks alone are equivalent. -/
def createProgressiveBatches (reorganizationMoves criticalMoves : List Move) :
    List Batch :=
  let step1 := reorganizationMoves.filter (fun m => m.step == some 1)
  let step2 := reorganizationMoves.filter (fun m => m.step == some 2)
  let b1 : List Batch :=
    if step1.length > 0 then [⟨1, "reorganization_step1", step1⟩] else []
  let b2 : List Batch :=
    if step2.length > 0 then [⟨b1.length + 1, "reorganization_step2", step2⟩] else []
  (b1 ++ b2) ++ criticalBatches ((b1 ++ b2).length + 1) criticalMoves

/-- The `phases` and `progressive_batches` of the returned plan
(plan-critical-move.js:734-750).  The `summary` counts and the `strategy`
echo are derivable from these fields and are omitted. -/
structure Plan where
  phase1_reorganization : List Move
  phase2_critical_moves : List Move
  progressive_batches : List Batch
deriving DecidableEq, Repr

/-- The source panel inferred at plan-critical-move.js:581:
`criticalBreakers[0]?.panel_id`.  The JS falsiness test
`if (!sourcePanelId)` fires exactly when the list is empty, since joined
panel ids are SQLite autoincrement keys ≥ 1. -/
def sourcePanelOf (db : DB) : Option Nat :=
  (getCriticalBreakers db).head?.map (fun b => b.panel_id)

/-- The strategy after the optional mixed-tandem pass
(plan-critical-move.js:586-591). -/
def strategyOf (db : DB) (spid : Nat) : Strategy :=
  let s0 := createTandemReorganizationStrategy db (getCriticalBreakers db) spid
  if s0.mixedTandems.length > 0 then createMixedTandemReorganization s0 spid else s0

/-- `unitsToMove` (plan-critical-move.js:594-597): pure units then
reorganized units. -/
def unitsToMoveOf (db : DB) (spid : Nat) : List PlanUnit :=
  (strategyOf db spid).pureUnits ++ (strategyOf db spid).reorganizedUnits

/-- `requiredSpaces` (plan-critical-move.js:605-613). -/
def requiredSpacesOf (db : DB) (spid : Nat) : Nat :=
  ((unitsToMoveOf db spid).map capacityCost).sum

/-- `generateMovePlan` (plan-critical-move.js:568-751), with thrown errors
as `Except.error`. -/
def generateMovePlan (db : DB) (targetPanelId : Nat) : Except PlanError Plan :=
  match getPanel db targetPanelId with
  | none => .error (.targetPanelNotFound targetPanelId)
  | some tp =>
    match (getCriticalBreakers db).head? with
    | none => .error .noCriticalBreakers
    | some first =>
      let spid := first.panel_id
      let strategy := strategyOf db spid
      let required := requiredSpacesOf db spid
      if (required : Int) > tp.available_positions then
        .error (.notEnoughSpace required tp.available_positions)
      else
        match allocateMoves targetPanelId
            (findAvailablePositions db targetPanelId tp.panel.size)
            (unitsToMoveOf db spid) 0 with
        | .error e => .error e
        | .ok criticalMoves =>
          .ok { phase1_reorganization := strategy.reorganizationMoves,
                phase2_critical_moves := criticalMoves,
                progressive_batches :=
                  createProgressiveBatches strategy.reorganizationMoves criticalMoves }

/-! Concrete database snapshots for the scenario claims.  Panel 1 is the
source panel, panel 2 the target panel. -/

/-- Scenario of C1: two mixed tandems in the source panel at positions 3 and
7 (slot A critical, slot B not), no other breakers, empty target panel. -/
def C1db : DB :=
  { panels := [⟨1, 20⟩, ⟨2, 12⟩],
    breakers :=
      [⟨1, 1, 3, .A, .tandem, true⟩, ⟨2, 1, 3, .B, .tandem, false⟩,
       ⟨3, 1, 7, .A, .tandem, true⟩, ⟨4, 1, 7, .B, .tandem, false⟩] }

/-- Scenario of C2: one mixed tandem at position 5 (A critical, B not) and a
standalone critical single breaker at position 10, empty target panel. -/
def C2db : DB :=
  { panels := [⟨1, 20⟩, ⟨2, 12⟩],
    breakers :=
      [⟨1, 1, 5, .A, .tandem, true⟩, ⟨2, 1, 5, .B, .tandem, false⟩,
       ⟨3, 1, 10, .single, .single, true⟩] }

/-- Scenario of C3's witness: two critical singles to move, while the target
panel has 11 of its 12 positions occupied, so `available_positions = 1`. -/
def C3db : DB :=
  { panels := [⟨1, 12⟩, ⟨2, 12⟩],
    breakers :=
      [⟨1, 1, 1, .single, .single, true⟩, ⟨2, 1, 2, .single, .single, true⟩] ++
      (List.range 11).map (fun i => ⟨10 + i, 2, i + 1, .single, .single, false⟩) }

/-- Scenario of C7's counterexample: a double-pole breaker at position 11 of
a 12-position panel; its implicit second slot is position 13. -/
def C7db : DB :=
  { panels := [⟨1, 12⟩],
    breakers := [⟨1, 1, 11, .single, .double_pole, false⟩] }

/-- Scenario of C7's witness: a double-pole breaker at position 5 of a
12-position panel, comfortably in bounds. -/
def C7wdb : DB :=
  { panels := [⟨1, 12⟩],
    breakers := [⟨1, 1, 5, .single, .double_pole, false⟩,
                 ⟨2, 1, 2, .single, .single, true⟩] }

/-- Scenario of C8's witness: one non-critical breaker, no critical ones. -/
def C8db : DB :=
  { panels := [⟨1, 12⟩],
    breakers := [⟨1, 1, 1, .single, .single, false⟩] }

/-- Scenario of C9's counterexample: a critical single in panel 1 and a
critical tandem breaker (with a non-critical B partner) in panel 2, the
target panel itself. -/
def C9db : DB :=
  { panels := [⟨1, 12⟩, ⟨2, 12⟩],
    breakers :=
      [⟨1, 1, 1, .single, .single, true⟩,
       ⟨2, 2, 3, .A, .tandem, true⟩, ⟨3, 2, 3, .B, .tandem, false⟩] }

/-- Scenario of C9's witness: critical singles in both panel 1 and the
target panel 2. -/
def C9wdb : DB :=
  { panels := [⟨1, 12⟩, ⟨2, 12⟩],
    breakers :=
      [⟨1, 1, 1, .single, .single, true⟩,
       ⟨4, 2, 5, .single, .single, true⟩] }

/-- Scenario of C10: three critical singles to move; the target panel holds
five double-pole breakers whose rows occupy 5 distinct positions
(`available_positions = 12 - 5 = 7`) but whose implicit `position+2` slots
leave only the 2 free positions 10 and 12. -/
def C10db : DB :=
  { panels := [⟨1, 12⟩, ⟨2, 12⟩],
    breakers :=
      [⟨1, 1, 1, .single, .single, true⟩, ⟨2, 1, 2, .single, .single, true⟩,
       ⟨3, 1, 3, .single, .single, true⟩,
       ⟨11, 2, 1, .single, .double_pole, false⟩,
       ⟨12, 2, 5, .single, .double_pole, false⟩,
       ⟨13, 2, 9, .single, .double_pole, false⟩,
       ⟨14, 2, 2, .single, .double_pole, false⟩,
       ⟨15, 2, 6, .single, .double_pole, false⟩] }

/-- C1, counterexample.  On the two-mixed-tandem source panel the planner
emits 2 reorganization moves, not the 4 a tandem-to-tandem cross-swap would
produce. -/
theorem C1_counterexample :
    (generateMovePlan C1db 2).map (fun p => p.phase1_reorganization.length)
      = .ok 2 ∧ (2 : Nat) ≠ 4 := by
  exact ⟨rfl, by decide⟩

/-- C1, amended.  With two mixed tandems at positions 3 and 7 the planner
pairs each tandem's critical occupant with the other tandem's non-critical
occupant: only the two non-critical occupants relocate (2 reorganization
moves, breaker 4 from position 7 to 3 and breaker 2 from position 3 to 7),
both resulting tandems still hold one critical and one non-critical breaker,
and both pairs — non-critical partners included — are moved to the target
panel as two separate two-breaker batches (critical occupant to slot A,
partner to slot B) after a single reorganization batch. -/
theorem C1_pairing_plan :
    (generateMovePlan C1db 2).map (fun p =>
        (p.phase1_reorganization.map (fun m => (m.breaker.id, m.src.position, m.dst.position)),
         p.phase2_critical_moves.map (fun m =>
           (m.breaker.id, m.breaker.critical, m.dst.position, m.dst.slot_position)),
         p.progressive_batches.map (fun b => (b.btype, b.moves.length))))
      = .ok ([(4, 7, 3), (2, 3, 7)],
             [(1, true, 1, .A), (4, false, 1, .B), (3, true, 2, .A), (2, false, 2, .B)],
             [("reorganization_step1", 2), ("critical_moves", 2), ("critical_moves", 2)]) := by
  rfl

/-- C2, counterexample.  On the mixed-tandem-plus-critical-single source
panel no reorganization move at all is emitted (so no single-for-tandem swap
happens), and the two critical moves land in slots `single` and `A`, not the
claimed `A` and `B`. -/
theorem C2_counterexample :
    (generateMovePlan C2db 2).map (fun p =>
        (p.phase1_reorganization.length,
         p.phase2_critical_moves.map (fun m => m.dst.slot_position)))
      = .ok (0, [.single, .A]) ∧ (0 : Nat) ≠ 2 ∧
      ([Slot.single, Slot.A] ≠ [Slot.A, Slot.B]) := by
  exact ⟨rfl, by decide, by decide⟩

/-- C2, amended.  The code has no single-for-tandem swap: the mixed tandem's
critical occupant finds no non-critical partner from a different tandem
position, so zero reorganization moves are emitted and the occupant is moved
alone as a `single_unit` keeping its slot `A`; the critical single at
position 10 is moved as its own unit with slot `single`; the two units go to
the target panel's two lowest free positions 1 and 2; the non-critical B
occupant stays at position 5. -/
theorem C2_no_swap_plan :
    (generateMovePlan C2db 2).map (fun p =>
        (p.phase1_reorganization,
         p.phase2_critical_moves.map (fun m =>
           (m.breaker.id, m.unit_type, m.src.panel_id, m.src.position,
            m.src.slot_position, m.dst.panel_id, m.dst.position, m.dst.slot_position))))
      = .ok ([],
             [(3, some "single_unit", 1, 10, .single, 2, 1, .single),
              (1, some "single_unit", 1, 5, .A, 2, 2, .A)]) := by
  rfl

/-- C7, counterexample.  `getOccupiedPositions` never clamps to the panel
size (and no validation in the repository enforces `position + 2 ≤ size` for
double-pole breakers): a double-pole breaker at position 11 of a 12-position
panel puts 13 into the occupied set. -/
theorem C7_counterexample :
    13 ∈ occupiedList C7db 1 ∧ (C7db.panels.getD 0 ⟨0, 0⟩).size = 12 ∧
      ¬(13 ≤ 12) := by
  exact ⟨by decide, rfl, by decide⟩

/-- C9, counterexample.  Breaker 2 is critical (a tandem breaker of the
target panel 2), yet the generated plan contains no move at all touching it:
tandem critical breakers outside the inferred source panel are dropped. -/
theorem C9_counterexample :
    ((generateMovePlan C9db 2).map (fun p =>
        (p.phase1_reorganization ++ p.phase2_critical_moves).any
          (fun m => m.breaker.id == 2)))
      = .ok false ∧
    (C9db.breakers.any (fun b =>
        b.id == 2 && b.critical && b.breaker_type == .tandem)) = true := by
  exact ⟨rfl, rfl⟩

/-- C10.  The capacity check uses `available_positions = size - COUNT(DISTINCT
position)` (7 here, ignoring the five implicit `position+2` slots of the
double-pole breakers), so 3 required spaces pass the check, while the
allocation free list (which does exclude the implicit slots) has only 2
entries, and plan generation fails with the distinct `ranOutOfPositions`
error instead of a capacity error. -/
theorem C10_capacity_mismatch :
    (getPanel C10db 2).map (fun t => t.available_positions) = some 7 ∧
    requiredSpacesOf C10db 1 = 3 ∧
    ¬((3 : Int) > 7) ∧
    (occupiedList C10db 2).dedup.length = 10 ∧
    (findAvailablePositions C10db 2 12).length = 2 ∧
    generateMovePlan C10db 2 = .error .ranOutOfPositions := by
  exact ⟨rfl, rfl, by decide, rfl, rfl, rfl⟩

/-- C3.  Whenever the total capacity cost of the units to move (1 per
single or tandem unit, 2 per double-pole unit, summed by
`requiredSpacesOf`) exceeds the target panel's `available_positions`, plan
generation fails with the capacity error carrying those two numbers — so no
plan object, and in particular no critical move, is ever returned. -/
theorem C3_capacity_error (db : DB) (tid : Nat) (tp : PanelInfo) (first : Breaker)
    (hp : getPanel db tid = some tp)
    (hh : (getCriticalBreakers db).head? = some first)
    (hcap : (requiredSpacesOf db first.panel_id : Int) > tp.available_positions) :
    generateMovePlan db tid
      = .error (.notEnoughSpace (requiredSpacesOf db first.panel_id)
          tp.available_positions) := by
  unfold generateMovePlan
  rw [hp, hh]
  simp only [if_pos hcap]

/-- C3, witness at a concrete input: two critical singles against a target
panel with one available position. -/
theorem C3_capacity_error_witness :
    generateMovePlan C3db 2 = .error (.notEnoughSpace 2 1) :=
  C3_capacity_error C3db 2 ⟨⟨2, 12⟩, 11, 1⟩ ⟨1, 1, 1, .single, .single, true⟩
    (by decide) (by decide) (by decide)

/-- C8.  When the snapshot contains no critical breaker while the target
panel exists, plan generation fails with the no-critical-breakers error as
an early exit, before any plan object is constructed. -/
theorem C8_no_critical_breakers (db : DB) (tid : Nat) (tp : PanelInfo)
    (hp : getPanel db tid = some tp)
    (hc : getCriticalBreakers db = []) :
    generateMovePlan db tid = .error .noCriticalBreakers := by
  unfold generateMovePlan
  rw [hp, hc]
  simp only [List.head?_nil]

/-- C8, witness at a concrete input: a panel holding one non-critical
breaker and no critical ones. -/
theorem C8_no_critical_breakers_witness :
    generateMovePlan C8db 1 = .error .noCriticalBreakers :=
  C8_no_critical_breakers C8db 1 ⟨⟨1, 12⟩, 1, 11⟩ (by decide) (by decide)

/-! Helper lemmas about the planner's building blocks, shared by the claim
theorems below. -/

/-- Every move produced by the pairing loop is a step-1
`reorganize_tandem_pair` move without a `side_change` field. -/
theorem pairLoop_moves_fields (spid : Nat) (cs ncs : List Tagged) :
    ∀ m ∈ (pairLoop spid cs ncs).moves,
      m.step = some 1 ∧ m.side_change = none := by
  induction cs generalizing ncs with
  | nil => simp [pairLoop]
  | cons c cs ih =>
    intro m hm
    rw [pairLoop] at hm
    cases hfind : ncs.findIdx? (fun nc => nc.originalPosition != c.originalPosition) with
    | some i =>
      rw [hfind] at hm
      simp only [List.mem_cons] at hm
      rcases hm with rfl | hm
      · exact ⟨rfl, rfl⟩
      · exact ih _ m hm
    | none =>
      rw [hfind] at hm
      exact ih _ m hm

/-- Every step-2 move built from the leftover non-critical breakers is a
step-2 `reorganize_single` move without a `side_change` field. -/
theorem step2_moves_fields (spid : Nat) (rem : List Tagged) (freed : List Nat) :
    ∀ m ∈ (rem.zip freed).map (fun p => mkStep2Move spid p.1 p.2),
      m.step = some 2 ∧ m.side_change = none := by
  intro m hm
  rcases List.mem_map.mp hm with ⟨p, _, rfl⟩
  exact ⟨rfl, rfl⟩

/-- The strategy used by `generateMovePlan` is either the classification
strategy itself or its mixed-tandem optimisation. -/
theorem strategyOf_cases (db : DB) (spid : Nat) :
    strategyOf db spid
        = createMixedTandemReorganization
            (createTandemReorganizationStrategy db (getCriticalBreakers db) spid) spid ∨
      strategyOf db spid
        = createTandemReorganizationStrategy db (getCriticalBreakers db) spid := by
  simp only [strategyOf]
  split
  · exact Or.inl rfl
  · exact Or.inr rfl

/-- Every reorganization move of `createMixedTandemReorganization` comes
from the pairing loop (step 1) or the leftover-placement pass (step 2). -/
theorem createMixed_moves_mem (s : Strategy) (spid : Nat) :
    ∀ m ∈ (createMixedTandemReorganization s spid).reorganizationMoves,
      (m.step = some 1 ∨ m.step = some 2) ∧ m.side_change = none := by
  unfold createMixedTandemReorganization
  simp only
  intro m hm
  rcases List.mem_append.mp hm with hm | hm
  · have h := pairLoop_moves_fields spid _ _ m hm
    exact ⟨Or.inl h.1, h.2⟩
  · have h := step2_moves_fields spid _ _ m hm
    exact ⟨Or.inr h.1, h.2⟩

/-- The reorganization move list of `createMixedTandemReorganization`
splits exactly into its step-1 moves followed by its step-2 moves — the
order in which the JS pushes them. -/
theorem createMixed_moves_split (s : Strategy) (spid : Nat) :
    (createMixedTandemReorganization s spid).reorganizationMoves
      = (createMixedTandemReorganization s spid).reorganizationMoves.filter
          (fun m => m.step == some 1)
        ++ (createMixedTandemReorganization s spid).reorganizationMoves.filter
          (fun m => m.step == some 2) := by
  unfold createMixedTandemReorganization
  simp only
  rw [List.filter_append, List.filter_append]
  rw [List.filter_eq_self.mpr
        (fun m hm => by simp [(pairLoop_moves_fields spid _ _ m hm).1]),
      List.filter_eq_nil_iff.mpr
        (fun m hm => by simp [(step2_moves_fields spid _ _ m hm).1]),
      List.filter_eq_nil_iff.mpr
        (fun m hm => by simp [(pairLoop_moves_fields spid _ _ m hm).1]),
      List.filter_eq_self.mpr
        (fun m hm => by simp [(step2_moves_fields spid _ _ m hm).1])]
  simp

/-- The classification pass emits no reorganization moves. -/
theorem createStrategy_moves_nil (db : DB) (cbs : List Breaker) (spid : Nat) :
    (createTandemReorganizationStrategy db cbs spid).reorganizationMoves = [] :=
  rfl

/-- The reorganization move list of the strategy used by the planner splits
exactly into its step-1 moves followed by its step-2 moves. -/
theorem strategyOf_reorganizationMoves_split (db : DB) (spid : Nat) :
    (strategyOf db spid).reorganizationMoves
      = (strategyOf db spid).reorganizationMoves.filter (fun m => m.step == some 1)
        ++ (strategyOf db spid).reorganizationMoves.filter (fun m => m.step == some 2) := by
  rcases strategyOf_cases db spid with h | h <;> rw [h]
  · exact createMixed_moves_split _ spid
  · rw [createStrategy_moves_nil]
    rfl

/-- Every reorganization move of the strategy used by the planner has no
`side_change` field. -/
theorem strategyOf_reorganizationMoves_side_change (db : DB) (spid : Nat) :
    ∀ m ∈ (strategyOf db spid).reorganizationMoves, m.side_change = none := by
  rcases strategyOf_cases db spid with h | h <;> rw [h]
  · exact fun m hm => (createMixed_moves_mem _ spid m hm).2
  · rw [createStrategy_moves_nil]
    simp

/-- With enough fuel (at least the move-list length), concatenating the
moves of the phase-2 batches reproduces the move list exactly. -/
theorem criticalBatchesAux_flatten (fuel : Nat) :
    ∀ (remaining : List Move) (startNum : Nat), remaining.length ≤ fuel →
      ((criticalBatchesAux fuel startNum remaining).map Batch.moves).flatten
        = remaining := by
  induction fuel with
  | zero =>
    intro remaining startNum hlen
    rw [Nat.le_zero, List.length_eq_zero] at hlen
    subst hlen
    rfl
  | succ fuel ih =>
    intro remaining startNum hlen
    cases remaining with
    | nil => rfl
    | cons m rest =>
      rw [criticalBatchesAux]
      split
      · simp only [List.map_cons, List.flatten_cons]
        rw [ih _ (startNum + 1)
            (le_trans ((List.dropWhile_sublist _).length_le)
              (Nat.le_of_succ_le_succ hlen))]
        simp [List.takeWhile_append_dropWhile]
      · simp only [List.map_cons, List.flatten_cons]
        rw [ih _ (startNum + 1) (Nat.le_of_succ_le_succ hlen)]
        simp

/-- Concatenating the moves of all progressive batches reproduces the
reorganization moves followed by the critical moves, provided the
reorganization list is its step-1 moves followed by its step-2 moves. -/
theorem createProgressiveBatches_flatten (reorg crit : List Move)
    (hsplit : reorg = reorg.filter (fun m => m.step == some 1)
        ++ reorg.filter (fun m => m.step == some 2)) :
    ((createProgressiveBatches reorg crit).map Batch.moves).flatten
      = reorg ++ crit := by
  unfold createProgressiveBatches criticalBatches
  simp only
  rw [List.map_append, List.flatten_append,
      criticalBatchesAux_flatten crit.length crit _ le_rfl]
  congr 1
  rw [List.map_append, List.flatten_append]
  conv_rhs => rw [hsplit]
  congr 1
  · split
    · simp
    · next hlen =>
      have h0 : reorg.filter (fun m => m.step == some 1) = [] := by
        rw [← List.length_eq_zero]
        omega
      rw [h0]
      rfl
  · split
    · simp
    · next hlen =>
      have h0 : reorg.filter (fun m => m.step == some 2) = [] := by
        rw [← List.length_eq_zero]
        omega
      rw [h0]
      rfl

/-- Destructuring a successful run of `generateMovePlan`: the target panel
and first critical breaker exist, the allocation loop succeeded, and the
plan's three fields are exactly the strategy's reorganization moves, the
allocated critical moves, and their batching. -/
theorem generateMovePlan_ok (db : DB) (tid : Nat) (plan : Plan)
    (h : generateMovePlan db tid = .ok plan) :
    ∃ tp first criticalMoves,
      getPanel db tid = some tp ∧
      (getCriticalBreakers db).head? = some first ∧
      allocateMoves tid (findAvailablePositions db tid tp.panel.size)
        (unitsToMoveOf db first.panel_id) 0 = .ok criticalMoves ∧
      plan = { phase1_reorganization := (strategyOf db first.panel_id).reorganizationMoves,
               phase2_critical_moves := criticalMoves,
               progressive_batches := createProgressiveBatches
                 (strategyOf db first.panel_id).reorganizationMoves criticalMoves } := by
  unfold generateMovePlan at h
  cases hp : getPanel db tid with
  | none => rw [hp] at h; exact absurd h (by simp)
  | some tp =>
    rw [hp] at h
    cases hh : (getCriticalBreakers db).head? with
    | none => rw [hh] at h; exact absurd h (by simp)
    | some first =>
      rw [hh] at h
      simp only at h
      split at h
      · exact absurd h (by simp)
      · cases ha : allocateMoves tid (findAvailablePositions db tid tp.panel.size)
            (unitsToMoveOf db first.panel_id) 0 with
        | error e => rw [ha] at h; exact absurd h (by simp)
        | ok criticalMoves =>
          rw [ha] at h
          simp only [Except.ok.injEq] at h
          exact ⟨tp, first, criticalMoves, rfl, rfl, ha, h.symm⟩

/-- Destructuring one successful step of the allocation loop. -/
theorem allocateMoves_ok_cons (tpid : Nat) (avail : List Nat) (u : PlanUnit)
    (rest : List PlanUnit) (idx : Nat) (ms : List Move)
    (h : allocateMoves tpid avail (u :: rest) idx = .ok ms) :
    idx < avail.length ∧
    ∃ ms2, allocateMoves tpid avail rest (idx + unitIndexStep u) = .ok ms2 ∧
      ms = emitUnitMoves tpid (avail.getD idx 0) u ++ ms2 := by
  rw [allocateMoves] at h
  split at h
  · exact absurd h (by simp)
  · next hidx =>
    cases ha : allocateMoves tpid avail rest (idx + unitIndexStep u) with
    | error e =>
      rw [ha] at h
      exact absurd h (by simp [Except.map])
    | ok ms2 =>
      rw [ha] at h
      simp only [Except.map, Except.ok.injEq] at h
      exact ⟨by omega, ms2, rfl, h.symm⟩

/-- Every move of a tandem unit's emission loop hardcodes
`side_change = false` and lands at the allocated target position. -/
theorem tandemMoves_fields (tpid targetPos len : Nat) :
    ∀ (i : Nat) (slots : List Breaker), ∀ m ∈ tandemMoves tpid targetPos len i slots,
      m.side_change = some false ∧ m.dst.position = targetPos := by
  intro i slots
  induction slots generalizing i with
  | nil => simp [tandemMoves]
  | cons s rest ih =>
    intro m hm
    rw [tandemMoves] at hm
    rcases List.mem_cons.mp hm with rfl | hm
    · exact ⟨rfl, rfl⟩
    · exact ih (i + 1) m hm

/-- Every move a unit emits hardcodes `side_change = false` and lands at the
allocated target position. -/
theorem emitUnitMoves_fields (tpid targetPos : Nat) (u : PlanUnit) :
    ∀ m ∈ emitUnitMoves tpid targetPos u,
      m.side_change = some false ∧ m.dst.position = targetPos := by
  cases u with
  | tandem_unit p slots =>
    exact fun m hm => tandemMoves_fields tpid targetPos slots.length 0 slots m hm
  | reorganized_tandem_unit c nc fp =>
    intro m hm
    rcases List.mem_cons.mp hm with rfl | hm
    · exact ⟨rfl, rfl⟩
    · rcases List.mem_cons.mp hm with rfl | hm
      · exact ⟨rfl, rfl⟩
      · exact absurd hm (by simp)
  | single_unit p slots =>
    intro m hm
    rcases List.mem_cons.mp hm with rfl | hm
    · exact ⟨rfl, rfl⟩
    · exact absurd hm (by simp)

/-- Every critical move produced by the allocation loop hardcodes
`side_change = false`. -/
theorem allocateMoves_side_change (tpid : Nat) (avail : List Nat) :
    ∀ (units : List PlanUnit) (idx : Nat) (ms : List Move),
      allocateMoves tpid avail units idx = .ok ms →
      ∀ m ∈ ms, m.side_change = some false := by
  intro units
  induction units with
  | nil =>
    intro idx ms h m hm
    rw [allocateMoves] at h
    simp only [Except.ok.injEq] at h
    subst h
    exact absurd hm (by simp)
  | cons u rest ih =>
    intro idx ms h m hm
    obtain ⟨hidx, ms2, ha2, rfl⟩ := allocateMoves_ok_cons tpid avail u rest idx ms h
    rcases List.mem_append.mp hm with hm | hm
    · exact (emitUnitMoves_fields tpid _ u m hm).1
    · exact ih _ _ ha2 m hm

/-- C4, counterexample.  In the C2 scenario both critical moves cross from
one bus side to the other (their source and destination parities differ),
yet their `side_change` is the hardcoded `false`, so `side_change = true`
does not hold whenever parities differ. -/
theorem C4_counterexample :
    (generateMovePlan C2db 2).map (fun p =>
        p.phase2_critical_moves.map (fun m =>
          (isLeftSide m.src.position, isLeftSide m.dst.position, m.side_change)))
      = .ok [(false, true, some false), (true, false, some false)] ∧
    ((some false : Option Bool) ≠ some true) := by
  exact ⟨rfl, by decide⟩

/-- C4, amended.  Parity never influences the emitted moves: every phase-1
reorganization move carries no `side_change` field at all, and every phase-2
critical move hardcodes `side_change = false` (the parity-based computation
at plan-critical-move.js:477 lives in `createReorganizationPlan`, which
`generateMovePlan` never calls). -/
theorem C4_side_change_constant (db : DB) (tid : Nat) (plan : Plan)
    (h : generateMovePlan db tid = .ok plan) :
    (plan.phase1_reorganization.all (fun m => m.side_change == none)) = true ∧
    (plan.phase2_critical_moves.all
      (fun m => m.side_change == some (false : Bool))) = true := by
  obtain ⟨tp, first, cms, hp, hh, ha, rfl⟩ := generateMovePlan_ok db tid plan h
  constructor
  · rw [List.all_eq_true]
    intro m hm
    simp [strategyOf_reorganizationMoves_side_change db first.panel_id m hm]
  · rw [List.all_eq_true]
    intro m hm
    simp [allocateMoves_side_change tid _ _ _ _ ha m hm]

/-- The plan produced for the C2 scenario, used to witness the universally
quantified claim theorems at a concrete input. -/
def C4examplePlan : Plan :=
  (generateMovePlan C2db 2).toOption.getD ⟨[], [], []⟩

/-- C4, witness at the C2 scenario. -/
theorem C4_side_change_constant_witness :
    (C4examplePlan.phase1_reorganization.all (fun m => m.side_change == none)) = true ∧
    (C4examplePlan.phase2_critical_moves.all
      (fun m => m.side_change == some (false : Bool))) = true :=
  C4_side_change_constant C2db 2 C4examplePlan (by rfl)

/-- C5.  Concatenating the moves of all progressive batches, in batch
order, reproduces exactly the phase-1 reorganization moves followed by the
phase-2 critical moves — no move lost or duplicated. -/
theorem C5_batch_concatenation (db : DB) (tid : Nat) (plan : Plan)
    (h : generateMovePlan db tid = .ok plan) :
    (plan.progressive_batches.map Batch.moves).flatten
      = plan.phase1_reorganization ++ plan.phase2_critical_moves := by
  obtain ⟨tp, first, cms, hp, hh, ha, rfl⟩ := generateMovePlan_ok db tid plan h
  exact createProgressiveBatches_flatten _ _
    (strategyOf_reorganizationMoves_split db first.panel_id)

/-- The plan produced for the C1 scenario, used to witness the batch
concatenation claim at a concrete input. -/
def C5examplePlan : Plan :=
  (generateMovePlan C1db 2).toOption.getD ⟨[], [], []⟩

/-- C5, witness at the C1 scenario. -/
theorem C5_batch_concatenation_witness :
    (C5examplePlan.progressive_batches.map Batch.moves).flatten
      = C5examplePlan.phase1_reorganization ++ C5examplePlan.phase2_critical_moves :=
  C5_batch_concatenation C1db 2 C5examplePlan (by rfl)

/-- The list of destination `slot_position` values the emission loop
assigns to one tandem unit's rows, mirroring plan-critical-move.js:635. -/
def tandemSlotAssignment (len : Nat) : Nat → List Breaker → List Slot
  | _, [] => []
  | i, _ :: rest => tandemTargetSlot len i :: tandemSlotAssignment len (i + 1) rest

/-- The destination `slot_position` values a unit's critical moves receive:
`single`-or-`A`/`B` per index for a pure tandem unit, `A` then `B` for a
reorganized tandem unit, and the breaker's own `slot_position` for a single
unit. -/
def unitTargetSlots : PlanUnit → List Slot
  | .tandem_unit _ slots => tandemSlotAssignment slots.length 0 slots
  | .reorganized_tandem_unit _ _ _ => [.A, .B]
  | .single_unit _ slots => [(slots.getD 0 default).slot_position]

/-- The tandem emission loop assigns exactly `tandemSlotAssignment`. -/
theorem tandemMoves_map_slots (tpid targetPos len : Nat) :
    ∀ (i : Nat) (slots : List Breaker),
      (tandemMoves tpid targetPos len i slots).map (fun m => m.dst.slot_position)
        = tandemSlotAssignment len i slots := by
  intro i slots
  induction slots generalizing i with
  | nil => rfl
  | cons s rest ih =>
    rw [tandemMoves, tandemSlotAssignment]
    simp only [List.map_cons]
    rw [ih (i + 1)]
    rfl

/-- Each unit's emitted moves receive exactly `unitTargetSlots`. -/
theorem emitUnitMoves_map_slots (tpid targetPos : Nat) (u : PlanUnit) :
    (emitUnitMoves tpid targetPos u).map (fun m => m.dst.slot_position)
      = unitTargetSlots u := by
  cases u with
  | tandem_unit p slots => exact tandemMoves_map_slots tpid targetPos slots.length 0 slots
  | reorganized_tandem_unit c nc fp => rfl
  | single_unit p slots => rfl

/-- The allocation loop assigns destination slots unit by unit, according
to `unitTargetSlots`. -/
theorem allocateMoves_map_slots (tpid : Nat) (avail : List Nat) :
    ∀ (units : List PlanUnit) (idx : Nat) (ms : List Move),
      allocateMoves tpid avail units idx = .ok ms →
      ms.map (fun m => m.dst.slot_position) = (units.map unitTargetSlots).flatten := by
  intro units
  induction units with
  | nil =>
    intro idx ms h
    rw [allocateMoves] at h
    simp only [Except.ok.injEq] at h
    subst h
    rfl
  | cons u rest ih =>
    intro idx ms h
    obtain ⟨hidx, ms2, ha2, rfl⟩ := allocateMoves_ok_cons tpid avail u rest idx ms h
    rw [List.map_append, List.map_cons, List.flatten_cons,
        emitUnitMoves_map_slots tpid _ u, ih _ _ ha2]

/-- A list whose elements are all equal is weakly sorted. -/
theorem pairwise_le_of_all_eq (l : List Nat) (v : Nat) (h : ∀ x ∈ l, x = v) :
    l.Pairwise (· ≤ ·) := by
  induction l with
  | nil => exact List.Pairwise.nil
  | cons x xs ih =>
    refine List.Pairwise.cons (fun y hy => ?_) (ih (fun y hy => h y (List.mem_cons_of_mem x hy)))
    rw [h x (List.mem_cons_self x xs), h y (List.mem_cons_of_mem x hy)]

/-- Reading a weakly sorted list at increasing indices gives increasing
values. -/
theorem sorted_getD_mono (l : List Nat) (hs : l.Pairwise (· ≤ ·)) (i j : Nat)
    (hij : i ≤ j) (hj : j < l.length) : l.getD i 0 ≤ l.getD j 0 := by
  rcases Nat.eq_or_lt_of_le hij with rfl | hlt
  · exact le_refl _
  · have hi : i < l.length := lt_trans hlt hj
    rw [List.getD_eq_getElem?_getD, List.getD_eq_getElem?_getD,
        List.getElem?_eq_getElem hi, List.getElem?_eq_getElem hj]
    exact List.pairwise_iff_get.mp hs ⟨i, hi⟩ ⟨j, hj⟩ hlt

/-- The allocation loop hands out destination positions taken from the free
list at weakly increasing indices: the emitted destination positions are
weakly sorted, and each is an entry of the free list at an index at least
the running `positionIndex`. -/
theorem allocateMoves_positions (tpid : Nat) (avail : List Nat)
    (hs : avail.Pairwise (· ≤ ·)) :
    ∀ (units : List PlanUnit) (idx : Nat) (ms : List Move),
      allocateMoves tpid avail units idx = .ok ms →
      (ms.map (fun m => m.dst.position)).Pairwise (· ≤ ·) ∧
      ∀ p ∈ ms.map (fun m => m.dst.position),
        ∃ j, idx ≤ j ∧ j < avail.length ∧ p = avail.getD j 0 := by
  intro units
  induction units with
  | nil =>
    intro idx ms h
    rw [allocateMoves] at h
    simp only [Except.ok.injEq] at h
    subst h
    exact ⟨List.Pairwise.nil, by simp⟩
  | cons u rest ih =>
    intro idx ms h
    obtain ⟨hidx, ms2, ha2, rfl⟩ := allocateMoves_ok_cons tpid avail u rest idx ms h
    obtain ⟨ih1, ih2⟩ := ih _ _ ha2
    have hemit : ∀ p ∈ (emitUnitMoves tpid (avail.getD idx 0) u).map
        (fun m => m.dst.position), p = avail.getD idx 0 := by
      intro p hp
      rcases List.mem_map.mp hp with ⟨m, hm, rfl⟩
      exact (emitUnitMoves_fields tpid _ u m hm).2
    constructor
    · rw [List.map_append, List.pairwise_append]
      refine ⟨pairwise_le_of_all_eq _ _ hemit, ih1, fun a ha b hb => ?_⟩
      obtain ⟨j, hj1, hj2, rfl⟩ := ih2 b hb
      rw [hemit a ha]
      exact sorted_getD_mono avail hs idx j (le_trans (Nat.le_add_right idx _) hj1) hj2
    · intro p hp
      rw [List.map_append, List.mem_append] at hp
      rcases hp with hp | hp
      · exact ⟨idx, le_refl idx, hidx, hemit p hp⟩
      · obtain ⟨j, hj1, hj2, hj3⟩ := ih2 p hp
        exact ⟨j, le_trans (Nat.le_add_right idx _) hj1, hj2, hj3⟩

/-- The free-position list of the target panel is weakly sorted. -/
theorem findAvailablePositions_sorted (db : DB) (pid size : Nat) :
    (findAvailablePositions db pid size).Pairwise (· ≤ ·) :=
  List.sorted_insertionSort _ _

/-- C6, counterexample.  In the C2 scenario both phase-2 moves come from
one-breaker units (`unit_type = single_unit`), yet the second lands with
`slot_position = A`, not `single`: a leftover critical tandem breaker moved
alone keeps its `A`/`B` designation. -/
theorem C6_counterexample :
    (generateMovePlan C2db 2).map (fun p =>
        p.phase2_critical_moves.map (fun m => (m.unit_type, m.dst.slot_position)))
      = .ok [(some "single_unit", .single), (some "single_unit", .A)] ∧
    (Slot.A ≠ Slot.single) := by
  exact ⟨rfl, by decide⟩

/-- C6, amended.  Units are assigned to the target panel's free positions in
ascending order with no side preference, and the destination slots are, per
unit: `A` then `B` for a tandem unit of two rows (`single` for a one-row
tandem unit), `A` then `B` for a reorganized tandem unit, and the breaker's
own `slot_position` for a single unit — which is `single` for non-tandem
breakers but stays `A`/`B` when a tandem breaker moves alone. -/
theorem C6_allocation_order_and_slots (db : DB) (tid : Nat) (plan : Plan)
    (first : Breaker)
    (hh : (getCriticalBreakers db).head? = some first)
    (h : generateMovePlan db tid = .ok plan) :
    (plan.phase2_critical_moves.map (fun m => m.dst.position)).Pairwise (· ≤ ·) ∧
    plan.phase2_critical_moves.map (fun m => m.dst.slot_position)
      = ((unitsToMoveOf db first.panel_id).map unitTargetSlots).flatten := by
  obtain ⟨tp, first2, cms, hp, hh2, ha, rfl⟩ := generateMovePlan_ok db tid plan h
  rw [hh] at hh2
  injection hh2 with hfe
  subst hfe
  exact ⟨(allocateMoves_positions tid _
      (findAvailablePositions_sorted db tid tp.panel.size) _ _ _ ha).1,
    allocateMoves_map_slots tid _ _ _ _ ha⟩

/-- The plan produced for the C2 scenario, used to witness the allocation
claim at a concrete input. -/
def C6examplePlan : Plan :=
  (generateMovePlan C2db 2).toOption.getD ⟨[], [], []⟩

/-- C6, witness at the C2 scenario. -/
theorem C6_allocation_witness :
    (C6examplePlan.phase2_critical_moves.map (fun m => m.dst.position)).Pairwise (· ≤ ·) ∧
    C6examplePlan.phase2_critical_moves.map (fun m => m.dst.slot_position)
      = ((unitsToMoveOf C2db 1).map unitTargetSlots).flatten :=
  C6_allocation_order_and_slots C2db 2 C6examplePlan ⟨1, 1, 5, .A, .tandem, true⟩
    (by rfl) (by rfl)

/-- C7, amended.  The occupied set always contains both `p` and `p + 2` for
a double-pole breaker at `p`; it stays within the panel size only under the
data-model invariant that every breaker of the panel is in bounds
(`position ≤ size`, and `position + 2 ≤ size` for double-poles) —
`getOccupiedPositions` itself applies no bound, and nothing in the
repository enforces the invariant (see `C7_counterexample`). -/
theorem C7_double_pole_occupancy (db : DB) (pid size : Nat) (b : Breaker)
    (hb : b ∈ db.breakers) (hpid : b.panel_id = pid)
    (hdp : b.breaker_type = .double_pole)
    (hwf : ∀ x ∈ db.breakers, x.panel_id = pid →
      x.position + (if x.breaker_type = .double_pole then 2 else 0) ≤ size) :
    (b.position ∈ occupiedList db pid ∧ b.position + 2 ∈ occupiedList db pid) ∧
    (occupiedList db pid).all (fun q => decide (q ≤ size)) = true := by
  have hbf : b ∈ db.breakers.filter (fun x => x.panel_id == pid) :=
    List.mem_filter.mpr ⟨hb, by simp [hpid]⟩
  constructor
  · constructor <;> rw [occupiedList, List.mem_flatMap]
    · exact ⟨b, hbf, by simp [hdp]⟩
    · exact ⟨b, hbf, by simp [hdp]⟩
  · rw [List.all_eq_true]
    intro q hq
    rw [occupiedList, List.mem_flatMap] at hq
    obtain ⟨x, hx, hqx⟩ := hq
    obtain ⟨hxmem, hxpid⟩ := List.mem_filter.mp hx
    have hbound := hwf x hxmem (by simpa using hxpid)
    rw [decide_eq_true_eq]
    by_cases hxd : x.breaker_type = .double_pole
    · rw [if_pos (by simp [hxd])] at hqx
      rw [if_pos hxd] at hbound
      rcases List.mem_cons.mp hqx with rfl | hqx
      · omega
      · rcases List.mem_cons.mp hqx with rfl | hqx
        · omega
        · exact absurd hqx (by simp)
    · rw [if_neg (by simp [hxd])] at hqx
      rw [if_neg hxd] at hbound
      rcases List.mem_cons.mp hqx with rfl | hqx
      · omega
      · exact absurd hqx (by simp)

/-- C7, witness: a double-pole breaker at position 5 of a 12-position panel
whose breakers are all in bounds. -/
theorem C7_double_pole_occupancy_witness :
    ((5 : Nat) ∈ occupiedList C7wdb 1 ∧ (5 : Nat) + 2 ∈ occupiedList C7wdb 1) ∧
    (occupiedList C7wdb 1).all (fun q => decide (q ≤ 12)) = true :=
  C7_double_pole_occupancy C7wdb 1 12 ⟨1, 1, 5, .single, .double_pole, false⟩
    (by decide) rfl rfl (by decide)

/-- The total order underlying `ORDER BY panel_id, position, slot_position`. -/
instance : IsTotal Breaker breakerLe := by
  refine ⟨fun a b => ?_⟩
  unfold breakerLe
  split_ifs <;> omega

/-- Transitivity of the `ORDER BY panel_id, position, slot_position`
comparison. -/
instance : IsTrans Breaker breakerLe := by
  refine ⟨fun a b c hab hbc => ?_⟩
  unfold breakerLe at hab hbc ⊢
  split_ifs at hab hbc ⊢ <;> omega

/-- Membership in the critical-breaker query result: exactly the critical
breakers (of any panel) whose panel row exists. -/
theorem mem_getCriticalBreakers (db : DB) (b : Breaker) :
    b ∈ getCriticalBreakers db
      ↔ b ∈ db.breakers ∧ b.critical = true ∧ panelExists db b.panel_id = true := by
  unfold getCriticalBreakers
  rw [List.mem_insertionSort, List.mem_filter]
  simp [and_assoc]

/-- The critical-breaker query result is sorted by
`(panel_id, position, slot_position)`. -/
theorem getCriticalBreakers_sorted (db : DB) :
    List.Pairwise breakerLe (getCriticalBreakers db) :=
  List.sorted_insertionSort breakerLe _

/-- Every non-tandem critical breaker of the query result — regardless of
which panel it lives in — is classified as a `single_unit`. -/
theorem strategy_singles_mem (db : DB) (cbs : List Breaker) (spid : Nat) (b : Breaker)
    (hb : b ∈ cbs) (hnt : ¬b.breaker_type = .tandem) :
    PlanUnit.single_unit b.position [b]
      ∈ (createTandemReorganizationStrategy db cbs spid).pureUnits := by
  unfold createTandemReorganizationStrategy
  simp only
  rw [List.mem_append]
  right
  rw [List.mem_map]
  exact ⟨b, List.mem_filter.mpr ⟨hb, by simp [hnt]⟩, rfl⟩

/-- The mixed-tandem pass only appends to `pureUnits`, so classification
units survive into the strategy the planner uses. -/
theorem strategyOf_pureUnits_mem (db : DB) (spid : Nat) (u : PlanUnit)
    (hu : u ∈ (createTandemReorganizationStrategy db (getCriticalBreakers db) spid).pureUnits) :
    u ∈ (strategyOf db spid).pureUnits := by
  rcases strategyOf_cases db spid with h | h <;> rw [h]
  · unfold createMixedTandemReorganization
    simp only
    exact List.mem_append.mpr (Or.inl hu)
  · exact hu

/-- A `single_unit` present in the unit list yields a critical move carrying
its breaker in the allocation loop's output. -/
theorem allocateMoves_single_unit_mem (tpid : Nat) (avail : List Nat) :
    ∀ (units : List PlanUnit) (idx : Nat) (ms : List Move),
      allocateMoves tpid avail units idx = .ok ms →
      ∀ (p : Nat) (slots : List Breaker), PlanUnit.single_unit p slots ∈ units →
        ∃ m ∈ ms, m.breaker = slots.getD 0 default ∧ m.unit_type = some "single_unit" := by
  intro units
  induction units with
  | nil =>
    intro idx ms h p slots hu
    exact absurd hu (by simp)
  | cons u rest ih =>
    intro idx ms h p slots hu
    obtain ⟨hidx, ms2, ha2, rfl⟩ := allocateMoves_ok_cons tpid avail u rest idx ms h
    rcases List.mem_cons.mp hu with rfl | hu
    · exact ⟨mkSingleMove tpid (avail.getD idx 0) (slots.getD 0 default),
        List.mem_append.mpr (Or.inl (List.mem_cons_self _ _)), rfl, rfl⟩
    · obtain ⟨m, hm, hmb, hmu⟩ := ih _ _ ha2 p slots hu
      exact ⟨m, List.mem_append.mpr (Or.inr hm), hmb, hmu⟩

/-- C9, amended.  `getCriticalBreakers` takes no source-panel parameter: it
returns exactly the critical breakers of every existing panel, sorted by
`(panel_id, position, slot_position)`, and the planner infers the source
panel from the first entry.  Every non-tandem critical breaker — including
one already in the target panel — is classified into a `single_unit` and
receives a critical move in the plan.  (Tandem critical breakers outside
the inferred source panel are, however, dropped: see `C9_counterexample`.) -/
theorem C9_global_query (db : DB) (tid : Nat) (plan : Plan) (b : Breaker)
    (h : generateMovePlan db tid = .ok plan)
    (hb : b ∈ db.breakers) (hc : b.critical = true)
    (hpe : panelExists db b.panel_id = true)
    (hnt : ¬b.breaker_type = .tandem) :
    b ∈ getCriticalBreakers db ∧
    List.Pairwise breakerLe (getCriticalBreakers db) ∧
    (plan.phase2_critical_moves.any
      (fun m => m.breaker == b && m.unit_type == some "single_unit")) = true := by
  have hbq : b ∈ getCriticalBreakers db :=
    (mem_getCriticalBreakers db b).mpr ⟨hb, hc, hpe⟩
  refine ⟨hbq, getCriticalBreakers_sorted db, ?_⟩
  obtain ⟨tp, first, cms, hp, hh, ha, rfl⟩ := generateMovePlan_ok db tid plan h
  have hmem : PlanUnit.single_unit b.position [b] ∈ unitsToMoveOf db first.panel_id := by
    unfold unitsToMoveOf
    exact List.mem_append.mpr (Or.inl (strategyOf_pureUnits_mem db first.panel_id _
      (strategy_singles_mem db _ first.panel_id b hbq hnt)))
  obtain ⟨m, hm, hmb, hmu⟩ :=
    allocateMoves_single_unit_mem tid _ _ _ _ ha b.position [b] hmem
  rw [List.any_eq_true]
  refine ⟨m, hm, ?_⟩
  simp [hmb, hmu, List.getD]

/-- The plan produced for the C9 witness scenario. -/
def C9examplePlan : Plan :=
  (generateMovePlan C9wdb 2).toOption.getD ⟨[], [], []⟩

/-- C9, witness: a critical single breaker already sitting in the target
panel 2 is still queried, classified and moved. -/
theorem C9_global_query_witness :
    (⟨4, 2, 5, .single, .single, true⟩ : Breaker) ∈ getCriticalBreakers C9wdb ∧
    List.Pairwise breakerLe (getCriticalBreakers C9wdb) ∧
    (C9examplePlan.phase2_critical_moves.any
      (fun m => m.breaker == (⟨4, 2, 5, .single, .single, true⟩ : Breaker)
        && m.unit_type == some "single_unit")) = true :=
  C9_global_query C9wdb 2 C9examplePlan ⟨4, 2, 5, .single, .single, true⟩
    (by rfl) (by decide) rfl rfl (by decide)

end BPH
